import Mathlib

/-
Verification development for the Cookbook TUI client (cookbook_tui.py).

The program is a curses front end over a hypermedia JSON REST API.  We give a
shallow embedding: JSON documents are an inductive type, the network is an
explicit transport oracle mapping each request to either a response or a
raised transport exception, and each screen handler / form of the source is
translated into a pure Lean function over these.  Python exceptions are
modelled with Except String; a value in the error constructor means the
corresponding Python code raises an uncaught exception at that point.
-/

set_option autoImplicit false

namespace Cookbook

/-- JSON values as decoded by requests res.json().  Numbers that occur in
this client are integers (ids, ratings, servings, times as strings). -/
inductive Json where
  | null : Json
  | str : String → Json
  | num : Int → Json
  | arr : List Json → Json
  | obj : List (String × Json) → Json

/-- Association lookup on the field list of a JSON object, first match wins,
mirroring Python dict indexing on decoded JSON objects. -/
def assoc (k : String) : List (String × Json) → Option Json
  | [] => none
  | (k2, v) :: rest => if k = k2 then some v else assoc k rest

/-- d.get(k) on a decoded JSON value: some value when d is an object holding
the key, none otherwise. -/
def Json.lookup : Json → String → Option Json
  | .obj fields, k => assoc k fields
  | _, _ => none

/-- d.get(k, default): Python dict.get with an explicit default. -/
def Json.getD (j : Json) (k : String) (d : Json) : Json :=
  (j.lookup k).getD d

/-- d[k]: Python dict indexing; raises KeyError when the key is absent. -/
def Json.index (j : Json) (k : String) : Except String Json :=
  match j.lookup k with
  | some v => .ok v
  | none => .error ("KeyError: " ++ k)

/-- data.get("items", []) followed by list iteration: the item list of a
collection document, empty when the key is absent or not an array (a failed
fetch yields an error object with no items key, hence the empty list). -/
def Json.itemsD (j : Json) : List Json :=
  match j.lookup ("items") with
  | some (.arr xs) => xs
  | _ => []

/-- str() of a decoded JSON scalar as interpolated by the f-strings of the
menu rows.  The rows of this client only interpolate strings and integers;
the container cases are abbreviated and never reached by any claim. -/
def pyStr : Json → String
  | .null => "None"
  | .str s => s
  | .num n => toString n
  | .arr _ => "[...]"
  | .obj _ => "\x7b...\x7d"

/-- Python str.strip() with no argument: drop leading and trailing
whitespace characters.  Written by structural recursion on the character
list so that it evaluates inside the kernel. -/
def pyStrip (s : String) : String :=
  String.mk (((s.data.dropWhile Char.isWhitespace).reverse.dropWhile Char.isWhitespace).reverse)

/-- Digits of a base-10 literal folded to a Nat. -/
def digitsToNat (cs : List Char) : Nat :=
  cs.foldl (fun a c => a * 10 + (c.toNat - 48)) 0

/-- Python int(s) on a string: surrounding whitespace ignored, optional sign,
at least one digit; anything else raises ValueError. -/
def pyInt (s : String) : Except String Int :=
  let t := pyStrip s
  let cs := t.data
  let signed : Int × List Char :=
    match cs with
    | '-' :: rest => (-1, rest)
    | '+' :: rest => (1, rest)
    | _ => (1, cs)
  if signed.2 ≠ [] ∧ signed.2.all Char.isDigit then
    .ok (signed.1 * (digitsToNat signed.2 : Int))
  else
    .error ("ValueError: invalid literal for int with base 10: " ++ s)

/-- Python int(x) applied to a value taken from a decoded JSON document:
identity on integers, string parse on strings, TypeError otherwise. -/
def pyIntOfJson : Json → Except String Int
  | .num n => .ok n
  | .str s => pyInt s
  | _ => .error ("TypeError: int argument must be a string or a number")

/-- An HTTP response as seen through requests: ok is status < 400, text the
raw body, body the outcome of res.json() (error when the body is not JSON). -/
structure HttpResponse where
  ok : Bool
  status_code : Int
  text : String
  body : Except String Json

/-- The network, as an oracle from request to outcome.  An error value means
the requests call raises (connection failure etc.); an ok value is the
response object, of any status. -/
structure Transport where
  get : String → Except String HttpResponse
  post : String → Json → Except String HttpResponse
  put : String → Json → Except String HttpResponse
  delete : String → Option Json → Except String HttpResponse

def API_BASE : String := "http://localhost:5000/"

/-- fetch_data(url): GET inside try/except; parsed JSON when ok, an object
with an error key on a non-ok status, a JSON parse failure, or a raised
transport exception.  Total: it never propagates an exception. -/
def fetch_data (t : Transport) (url : String) : Json :=
  match t.get url with
  | .error e => Json.obj [("error", Json.str e)]
  | .ok res =>
    if res.ok then
      match res.body with
      | .ok j => j
      | .error e => Json.obj [("error", Json.str e)]
    else
      Json.obj [("error", Json.str res.text)]

/-- post_data(url, payload): POST inside try/except; the response object on
any status, None (modelled as none) when the call raises. -/
def post_data (t : Transport) (url : String) (payload : Json) : Option HttpResponse :=
  match t.post url payload with
  | .ok res => some res
  | .error _ => none

/-- get_user_input(stdscr, prompt, default): the typed line is stripped of
surrounding whitespace; the stripped text is returned unless it is empty, in
which case the default is returned (input_str or default). -/
def get_user_input (typed default : String) : String :=
  let input_str := pyStrip typed
  if input_str = "" then default else input_str

/-- KEY_UP handling shared by every menu loop: (idx - 1) % n with Python
semantics (nonnegative remainder), written with the euclidean mod. -/
def menu_key_up (idx n : Int) : Int :=
  (idx - 1).emod n

/-- KEY_DOWN handling shared by every menu loop: (idx + 1) % n with Python
semantics. -/
def menu_key_down (idx n : Int) : Int :=
  (idx + 1).emod n

/-- A network write request issued by a screen. -/
inductive NetReq where
  | post (url : String) (payload : Json)
  | put (url : String) (payload : Json)
  | delete (url : String) (payload : Option Json)

/-- What a form/detail screen did: the write requests it issued, and either
the message it displayed (ok) or the uncaught Python exception it raised
(error). -/
structure ScreenOut where
  requests : List NetReq
  outcome : Except String String

/-- data.controls(rel).href: the relation-name lookup
data["@controls"][rel]["href"] used for every mutation URL. -/
def Json.control (data : Json) (rel : String) : Except String String :=
  match data.index ("@controls") with
  | .error e => .error e
  | .ok ctrls =>
    match ctrls.index rel with
    | .error e => .error e
    | .ok c =>
      match c.index ("href") with
      | .error e => .error e
      | .ok (.str s) => .ok s
      | .ok _ => .error ("TypeError: href is not a string")

/-- get_user_input(...) or data[...]: the trimmed nonempty input as a JSON
string, else the (lazily evaluated) fallback value. -/
def pyOrField (typed : String) (fallback : Except String Json) : Except String Json :=
  let v := get_user_input typed ("")
  if v = "" then fallback else .ok (.str v)

/-- add_user(stdscr, href): prompts for username/email/password, rejects if
any is blank, otherwise POSTs the payload and reports success exactly on
status 201; a None response from post_data makes response.status_code raise
AttributeError. -/
def add_user (t : Transport) (href usernameT emailT passwordT : String) : ScreenOut :=
  let username := get_user_input usernameT ("")
  let email := get_user_input emailT ("")
  let password := get_user_input passwordT ("")
  if username = "" ∨ email = "" ∨ password = "" then
    ⟨[], .ok ("All fields are required. Press any key to exit.")⟩
  else
    let payload := Json.obj
      [("username", .str username), ("email", .str email), ("password", .str password)]
    let url := API_BASE ++ href
    match post_data t url payload with
    | some response =>
      ⟨[.post url payload],
        .ok (if response.status_code = 201 then
          ("User created successfully. Press any key to exit.")
        else
          ("Failed to create user. Press any key to exit."))⟩
    | none => ⟨[.post url payload], .error ("AttributeError: NoneType object has no attribute status_code")⟩

/-- add_ingredient(stdscr, href): prompts for name/description, rejects if
either is blank, otherwise POSTs the payload and reports success exactly on
status 201 (message texts as in the source, including its double space). -/
def add_ingredient (t : Transport) (href nameT descriptionT : String) : ScreenOut :=
  let name := get_user_input nameT ("")
  let description := get_user_input descriptionT ("")
  if name = "" ∨ description = "" then
    ⟨[], .ok ("All fields are required. Press any key to exit.")⟩
  else
    let payload := Json.obj [("name", .str name), ("description", .str description)]
    let url := API_BASE ++ href
    match post_data t url payload with
    | some response =>
      ⟨[.post url payload],
        .ok (if response.status_code = 201 then
          ("Ingredient created successfully. Press any key to exit")
        else
          ("Failed to create ingredient.  Press any key to exit"))⟩
    | none => ⟨[.post url payload], .error ("AttributeError: NoneType object has no attribute status_code")⟩

/-- add_recipe(stdscr, href): prompts for seven fields; the two numeric
fields become -1 when blank (int(x) if x.strip() else -1) and raise
ValueError when non-numeric; any blank text field or -1 sentinel rejects the
form; otherwise the payload is POSTed and success is reported on 201. -/
def add_recipe (t : Transport)
    (href titleT descT stepsT prepT cookT servingT useridT : String) : ScreenOut :=
  let title := get_user_input titleT ("")
  let description := get_user_input descT ("")
  let steps := get_user_input stepsT ("")
  let prep_time := get_user_input prepT ("")
  let cook_time := get_user_input cookT ("")
  let serving_input := get_user_input servingT ("")
  match (if pyStrip serving_input ≠ "" then pyInt serving_input else .ok (-1)) with
  | .error e => ⟨[], .error e⟩
  | .ok serving =>
    let userid_input := get_user_input useridT ("")
    match (if pyStrip userid_input ≠ "" then pyInt userid_input else .ok (-1)) with
    | .error e => ⟨[], .error e⟩
    | .ok user_id =>
      if title = "" ∨ description = "" ∨ steps = "" ∨ prep_time = "" ∨ cook_time = ""
          ∨ serving = -1 ∨ user_id = -1 then
        ⟨[], .ok ("All fields are required. Press any key to exit.")⟩
      else
        let payload := Json.obj
          [("title", .str title), ("description", .str description), ("steps", .str steps),
           ("preparation_time", .str prep_time), ("cooking_time", .str cook_time),
           ("serving", .num serving), ("user_id", .num user_id)]
        let url := API_BASE ++ href
        match post_data t url payload with
        | some response =>
          ⟨[.post url payload],
            .ok (if response.status_code = 201 then
              ("Recipe created successfully. Press any key to exit.")
            else
              ("Failed to create recipe."))⟩
        | none => ⟨[.post url payload], .error ("AttributeError: NoneType object has no attribute status_code")⟩

/-- Add Review action of show_recipe_details: user id falls back to the
user_id of the recipe when blank, rating to 1 when blank, feedback is taken
as-is; the payload is then POSTed unconditionally (the response is ignored)
and the submitted message is shown. -/
def add_review_action (t : Transport) (data : Json)
    (userIdT ratingT feedbackT : String) : ScreenOut :=
  let uInput := get_user_input userIdT ("")
  match (if uInput = "" then
      match data.index ("user_id") with
      | .error e => .error e
      | .ok v => pyIntOfJson v
    else pyInt uInput) with
  | .error e => ⟨[], .error e⟩
  | .ok user_id =>
    let rInput := get_user_input ratingT ("")
    match (if rInput = "" then .ok (1 : Int) else pyInt rInput) with
    | .error e => ⟨[], .error e⟩
    | .ok rating =>
      let feedback := get_user_input feedbackT ("")
      let payload := Json.obj
        [("user_id", .num user_id), ("rating", .num rating), ("feedback", .str feedback)]
      match data.control ("cookbook:add-review") with
      | .error e => ⟨[], .error e⟩
      | .ok href_post =>
        let url := API_BASE ++ href_post
        let _ := post_data t url payload
        ⟨[.post url payload], .ok ("Review submitted. Press any key to exit.")⟩

/-- Edit User action of show_user_details: each payload field is the trimmed
input or, when blank, the previously fetched value; the PUT is issued with a
raw requests.put, so a transport failure there raises out of the handler. -/
def show_user_details_edit (t : Transport) (data : Json)
    (usernameT emailT passwordT : String) : ScreenOut :=
  match pyOrField usernameT (data.index ("username")) with
  | .error e => ⟨[], .error e⟩
  | .ok uV =>
    match pyOrField emailT (data.index ("email")) with
    | .error e => ⟨[], .error e⟩
    | .ok eV =>
      match pyOrField passwordT (data.index ("password")) with
      | .error e => ⟨[], .error e⟩
      | .ok pV =>
        let payload := Json.obj [("username", uV), ("email", eV), ("password", pV)]
        match data.control ("cookbook:update-user") with
        | .error e => ⟨[], .error e⟩
        | .ok put_url =>
          let url := API_BASE ++ put_url
          match t.put url payload with
          | .error e => ⟨[.put url payload], .error e⟩
          | .ok _ => ⟨[.put url payload], .ok ("User updated. Press any key to exit.")⟩

/-- edit_recipe(stdscr, data): the title prompt interpolates data of the
title key (KeyError when absent); each payload field is the input or, when
blank, the fetched value (with dict.get defaults for the optional text
fields and int coercion of the numeric ones); the payload is PUT to the
update-recipe control with a raw requests.put. -/
def edit_recipe (t : Transport) (data : Json)
    (titleT descT stepsT prepT cookT servingT useridT : String) : ScreenOut :=
  match data.index ("title") with
  | .error e => ⟨[], .error e⟩
  | .ok promptTitle =>
    match pyOrField titleT (.ok promptTitle) with
    | .error e => ⟨[], .error e⟩
    | .ok titleV =>
      match pyOrField descT (.ok (data.getD ("description") (.str ("")))) with
      | .error e => ⟨[], .error e⟩
      | .ok descV =>
        match pyOrField stepsT (.ok (data.getD ("steps") (.str ("")))) with
        | .error e => ⟨[], .error e⟩
        | .ok stepsV =>
          match pyOrField prepT (.ok (data.getD ("preparation_time") (.str ("")))) with
          | .error e => ⟨[], .error e⟩
          | .ok prepV =>
            match pyOrField cookT (.ok (data.getD ("cooking_time") (.str ("")))) with
            | .error e => ⟨[], .error e⟩
            | .ok cookV =>
              let sIn := get_user_input servingT ("")
              match (if sIn = "" then pyIntOfJson (data.getD ("serving") (.num 1))
                else pyInt sIn) with
              | .error e => ⟨[], .error e⟩
              | .ok serving =>
                let uIn := get_user_input useridT ("")
                match (if uIn = "" then
                    match data.index ("user_id") with
                    | .error e => .error e
                    | .ok v => pyIntOfJson v
                  else pyInt uIn) with
                | .error e => ⟨[], .error e⟩
                | .ok user_id =>
                  let payload := Json.obj
                    [("title", titleV), ("description", descV), ("steps", stepsV),
                     ("preparation_time", prepV), ("cooking_time", cookV),
                     ("serving", .num serving), ("user_id", .num user_id)]
                  match data.control ("cookbook:update-recipe") with
                  | .error e => ⟨[], .error e⟩
                  | .ok put_url =>
                    let url := API_BASE ++ put_url
                    match t.put url payload with
                    | .error e => ⟨[.put url payload], .error e⟩
                    | .ok _ => ⟨[.put url payload], .ok ("Recipe updated. Press any key to exit.")⟩

/-- Effectful map over Except, mirroring a Python list comprehension whose
body may raise: the first raise propagates. -/
def mapE {α β : Type} (f : α → Except String β) : List α → Except String (List β)
  | [] => .ok []
  | a :: as =>
    match f a with
    | .error e => .error e
    | .ok b =>
      match mapE f as with
      | .error e => .error e
      | .ok bs => .ok (b :: bs)

def usersUrl : String := API_BASE ++ "/api/users/"

def recipesUrl : String := API_BASE ++ "/api/recipes/"

def ingredientsUrl : String := API_BASE ++ "/api/ingredients/"

/-- reload_users(): fetch the collection and take its items (empty on a
failed fetch). -/
def reload_users (t : Transport) : List Json :=
  (fetch_data t usersUrl).itemsD

/-- reload_recipes(). -/
def reload_recipes (t : Transport) : List Json :=
  (fetch_data t recipesUrl).itemsD

/-- reload_ingredients(). -/
def reload_ingredients (t : Transport) : List Json :=
  (fetch_data t ingredientsUrl).itemsD

/-- The opening phase of a list handler: either the empty-collection message
(display, wait for one keypress, return to caller) or the list screen with
its items and collection document. -/
inductive InitResult where
  | emptyMsg (msg : String)
  | list (items : List Json) (data : Json)

/-- handle_users, lines before the loop: fetch, and bail out with the
message when there are no items. -/
def handle_users_init (t : Transport) : InitResult :=
  let users := reload_users t
  let data := fetch_data t usersUrl
  if users.isEmpty then .emptyMsg ("No users found.") else .list users data

/-- handle_recipes, lines before the loop. -/
def handle_recipes_init (t : Transport) : InitResult :=
  let recipes := reload_recipes t
  let data := fetch_data t recipesUrl
  if recipes.isEmpty then .emptyMsg ("No recipes found.") else .list recipes data

/-- handle_ingredients, lines before the loop. -/
def handle_ingredients_init (t : Transport) : InitResult :=
  let ingredients := reload_ingredients t
  let data := fetch_data t ingredientsUrl
  if ingredients.isEmpty then .emptyMsg ("No ingredients found.") else .list ingredients data

/-- Menu row of one user (f-string over dict indexing, which raises on a
missing key). -/
def user_option (u : Json) : Except String String :=
  match u.index ("user_id") with
  | .error e => .error e
  | .ok uid =>
    match u.index ("username") with
    | .error e => .error e
    | .ok un =>
      match u.index ("email") with
      | .error e => .error e
      | .ok em => .ok (pyStr uid ++ ". " ++ pyStr un ++ " (" ++ pyStr em ++ ")")

/-- Menu row of one recipe. -/
def recipe_option (r : Json) : Except String String :=
  match r.index ("recipe_id") with
  | .error e => .error e
  | .ok rid =>
    match r.index ("title") with
    | .error e => .error e
    | .ok ti => .ok (" " ++ pyStr rid ++ ". " ++ pyStr ti ++ " ")

/-- Menu row of one ingredient. -/
def ingredient_option (i : Json) : Except String String :=
  match i.index ("ingredient_id") with
  | .error e => .error e
  | .ok iid =>
    match i.index ("name") with
    | .error e => .error e
    | .ok nm => .ok (pyStr iid ++ ". " ++ pyStr nm)

/-- Options of the user list screen: one row per user, then a blank
separator row, the add row and the back row. -/
def handle_users_options (users : List Json) : Except String (List String) :=
  match mapE user_option users with
  | .error e => .error e
  | .ok rows => .ok (rows ++ ["", "Add New User", "Back"])

/-- Options of the recipe list screen. -/
def handle_recipes_options (recipes : List Json) : Except String (List String) :=
  match mapE recipe_option recipes with
  | .error e => .error e
  | .ok rows => .ok (rows ++ ["", "Add New Recipe", "Back"])

/-- Options of the ingredient list screen. -/
def handle_ingredients_options (ingredients : List Json) : Except String (List String)  :=
  match mapE ingredient_option ingredients with
  | .error e => .error e
  | .ok rows => .ok (rows ++ ["", "Add New Ingredient", "Back"])

/-- Outcome of pressing Enter in a list screen: return to the caller, run
the add form (with the href resolved from the collection document) and then
reload, open the detail screen of the selected entity (with its self href)
and then reload, or raise an uncaught exception. -/
inductive EnterResult where
  | back
  | addThenReload (href : String) (next : List Json) (nextIdx : Nat)
  | detailThenReload (href : String) (next : List Json) (nextIdx : Nat)
  | crash (msg : String)

/-- Enter dispatch of handle_users at selection idx: the string at that row
decides the branch, and the entity branch indexes into the users list (an
IndexError when idx is out of its bounds). -/
def handle_users_enter (t : Transport) (data : Json) (users : List Json) (idx : Nat) :
    EnterResult :=
  match handle_users_options users with
  | .error e => .crash e
  | .ok options =>
    let sel := options.getD idx ("")
    if sel = "Back" then .back
    else if sel = "Add New User" then
      match data.control ("cookbook:add-user") with
      | .error e => .crash e
      | .ok href => .addThenReload href (reload_users t) 0
    else
      match users.get? idx with
      | none => .crash ("IndexError: list index out of range")
      | some user =>
        match user.control ("self") with
        | .error e => .crash e
        | .ok href => .detailThenReload href (reload_users t) 0

/-- Enter dispatch of handle_recipes. -/
def handle_recipes_enter (t : Transport) (data : Json) (recipes : List Json) (idx : Nat) :
    EnterResult :=
  match handle_recipes_options recipes with
  | .error e => .crash e
  | .ok options =>
    let sel := options.getD idx ("")
    if sel = "Back" then .back
    else if sel = "Add New Recipe" then
      match data.control ("cookbook:add-recipe") with
      | .error e => .crash e
      | .ok href => .addThenReload href (reload_recipes t) 0
    else
      match recipes.get? idx with
      | none => .crash ("IndexError: list index out of range")
      | some recipe =>
        match recipe.control ("self") with
        | .error e => .crash e
        | .ok href => .detailThenReload href (reload_recipes t) 0

/-- Enter dispatch of handle_ingredients. -/
def handle_ingredients_enter (t : Transport) (data : Json) (ingredients : List Json)
    (idx : Nat) : EnterResult :=
  match handle_ingredients_options ingredients with
  | .error e => .crash e
  | .ok options =>
    let sel := options.getD idx ("")
    if sel = "Back" then .back
    else if sel = "Add New Ingredient" then
      match data.control ("cookbook:add-ingredient") with
      | .error e => .crash e
      | .ok href => .addThenReload href (reload_ingredients t) 0
    else
      match ingredients.get? idx with
      | none => .crash ("IndexError: list index out of range")
      | some ingredient =>
        match ingredient.control ("self") with
        | .error e => .crash e
        | .ok href => .detailThenReload href (reload_ingredients t) 0

/-- Fixture: a 404 response whose body is not JSON. -/
def resp404 : HttpResponse :=
  ⟨false, 404, "404 NOT FOUND", .error ("ValueError: no JSON object could be decoded")⟩

/-- Fixture: a 201 created response. -/
def resp201 : HttpResponse :=
  ⟨true, 201, "", .ok Json.null⟩

/-- Fixture: a 400 response. -/
def resp400 : HttpResponse :=
  ⟨false, 400, "bad request", .ok Json.null⟩

/-- Fixture transport: every request raises a connection error. -/
def tErr : Transport :=
  ⟨fun _ => .error ("ConnectionError: connection refused"),
   fun _ _ => .error ("ConnectionError: connection refused"),
   fun _ _ => .error ("ConnectionError: connection refused"),
   fun _ _ => .error ("ConnectionError: connection refused")⟩

/-- Fixture transport: every request gets a 404 response. -/
def tNotFound : Transport :=
  ⟨fun _ => .ok resp404, fun _ _ => .ok resp404, fun _ _ => .ok resp404,
   fun _ _ => .ok resp404⟩

/-- Fixture transport: every request gets a 201 response. -/
def t201 : Transport :=
  ⟨fun _ => .ok resp201, fun _ _ => .ok resp201, fun _ _ => .ok resp201,
   fun _ _ => .ok resp201⟩

/-- Fixture transport: every request gets a 400 response. -/
def t400 : Transport :=
  ⟨fun _ => .ok resp400, fun _ _ => .ok resp400, fun _ _ => .ok resp400,
   fun _ _ => .ok resp400⟩

/-- Fixture: a fetched user document with an update-user control. -/
def userFixture : Json :=
  Json.obj [("user_id", .num 1), ("username", .str ("alice")),
    ("email", .str ("alice@example.com")), ("password", .str ("hunter2")),
    ("@controls", .obj [("cookbook:update-user", .obj [("href", .str ("/api/users/alice/"))]),
      ("cookbook:delete-user", .obj [("href", .str ("/api/users/alice/"))])])]

/-- Fixture: one user item of a collection document, with a self link. -/
def userItemFixture : Json :=
  Json.obj [("user_id", .num 1), ("username", .str ("alice")),
    ("email", .str ("alice@example.com")),
    ("@controls", .obj [("self", .obj [("href", .str ("/api/users/alice/"))])])]

/-- Fixture: a user collection document with an add-user control. -/
def usersCollectionFixture : Json :=
  Json.obj [("items", .arr []),
    ("@controls", .obj [("cookbook:add-user", .obj [("href", .str ("/api/users/"))])])]

/-- Fixture: an ingredient collection document with an add-ingredient
control. -/
def ingredientsCollectionFixture : Json :=
  Json.obj [("items", .arr []),
    ("@controls", .obj [("cookbook:add-ingredient", .obj [("href", .str ("/api/ingredients/"))])])]

/-- Fixture: a fetched recipe document with an add-review control. -/
def recipeReviewFixture : Json :=
  Json.obj [("user_id", .num 7),
    ("@controls", .obj [("cookbook:add-review", .obj [("href", .str ("/api/recipes/1/reviews/"))])])]

/-- The payload of the add-ingredient scenario. -/
def saltPayload : Json :=
  Json.obj [("name", .str ("Salt")), ("description", .str ("Fine grain"))]

/-- A fetched recipe document with the given field values and an
update-recipe control, as edit_recipe consumes it. -/
def recipe_obj (title description steps prep cook : String) (serving uid : Int)
    (updHref : String) : Json :=
  Json.obj [("title", .str title), ("description", .str description), ("steps", .str steps),
    ("preparation_time", .str prep), ("cooking_time", .str cook),
    ("serving", .num serving), ("user_id", .num uid),
    ("@controls", .obj [("cookbook:update-recipe", .obj [("href", .str updHref)])])]

/-- Fixture: a concrete fetched recipe document. -/
def recipeFixture : Json :=
  recipe_obj ("Soup") ("Warm") ("[1]") ("10m") ("20m") 2 7 ("/api/recipes/1/")

/-- C4: for every navigable menu with n options and current selection i in
[0, n), KEY_UP sets the index to (i - 1) mod n and KEY_DOWN to (i + 1) mod n
(Python remainder, i.e. euclidean mod), so the selection wraps at both ends
and stays a valid index in [0, n). -/
theorem claim_C4_menu_wrap (n i : Int) (hn : 0 < n) (hi0 : 0 ≤ i) (hin : i < n) :
    menu_key_up i n = (i - 1).emod n ∧ menu_key_down i n = (i + 1).emod n ∧
    0 ≤ menu_key_up i n ∧ menu_key_up i n < n ∧
    0 ≤ menu_key_down i n ∧ menu_key_down i n < n := by
  refine ⟨rfl, rfl, ?_, ?_, ?_, ?_⟩
  · exact Int.emod_nonneg _ (by omega)
  · exact Int.emod_lt_of_pos _ hn
  · exact Int.emod_nonneg _ (by omega)
  · exact Int.emod_lt_of_pos _ hn

/-- Witness for C4 at the root menu size (four options) with the cursor on
the first row: KEY_UP wraps to the last row, KEY_DOWN moves to the second. -/
theorem claim_C4_menu_wrap_witness :
    menu_key_up 0 4 = ((0 : Int) - 1).emod 4 ∧ menu_key_down 0 4 = ((0 : Int) + 1).emod 4 ∧
    0 ≤ menu_key_up 0 4 ∧ menu_key_up 0 4 < 4 ∧
    0 ≤ menu_key_down 0 4 ∧ menu_key_down 0 4 < 4 :=
  claim_C4_menu_wrap 4 0 (by decide) (by decide) (by decide)

/-- C9: for every prompt, get_user_input returns the typed input with
surrounding whitespace trimmed, and returns the supplied default exactly
when the trimmed input is empty. -/
theorem claim_C9_input_trim (typed default : String) :
    (pyStrip typed ≠ "" → get_user_input typed default = pyStrip typed) ∧
    (pyStrip typed = "" → get_user_input typed default = default) ∧
    (get_user_input typed default = default ∨ get_user_input typed default = pyStrip typed) := by
  refine ⟨fun h => ?_, fun h => ?_, ?_⟩
  · simp [get_user_input, h]
  · simp [get_user_input, h]
  · by_cases h : pyStrip typed = ""
    · exact .inl (by simp [get_user_input, h])
    · exact .inr (by simp [get_user_input, h])

/-- Witness for C9: typed text with surrounding blanks comes back trimmed,
and a whitespace-only entry yields the default. -/
theorem claim_C9_input_trim_witness :
    get_user_input ("  hi  ") ("d") = pyStrip ("  hi  ") ∧
    get_user_input ("   ") ("d") = ("d") :=
  ⟨(claim_C9_input_trim ("  hi  ") ("d")).1 (by decide),
   (claim_C9_input_trim ("   ") ("d")).2.1 (by decide)⟩

/-- C8: for each entity-list handler, when the collection fetch fails with a
non-2xx response the fetched document carries no items, so the handler shows
its No-entity-found message and returns to its caller on the next keypress
(the emptyMsg outcome) instead of crashing. -/
theorem claim_C8_fetch_failure_message (t : Transport) :
    (∀ r, t.get usersUrl = .ok r → r.ok = false →
      handle_users_init t = .emptyMsg ("No users found.")) ∧
    (∀ r, t.get recipesUrl = .ok r → r.ok = false →
      handle_recipes_init t = .emptyMsg ("No recipes found.")) ∧
    (∀ r, t.get ingredientsUrl = .ok r → r.ok = false →
      handle_ingredients_init t = .emptyMsg ("No ingredients found.")) := by
  refine ⟨fun r hget hok => ?_, fun r hget hok => ?_, fun r hget hok => ?_⟩
  · simp [handle_users_init, reload_users, fetch_data, hget, hok, Json.itemsD,
      Json.lookup, assoc]
  · simp [handle_recipes_init, reload_recipes, fetch_data, hget, hok, Json.itemsD,
      Json.lookup, assoc]
  · simp [handle_ingredients_init, reload_ingredients, fetch_data, hget, hok, Json.itemsD,
      Json.lookup, assoc]

/-- Witness for C8: under a transport that answers every GET with a 404
response, all three list handlers bail out with their message. -/
theorem claim_C8_fetch_failure_message_witness :
    handle_users_init tNotFound = .emptyMsg ("No users found.") ∧
    handle_recipes_init tNotFound = .emptyMsg ("No recipes found.") ∧
    handle_ingredients_init tNotFound = .emptyMsg ("No ingredients found.") :=
  ⟨(claim_C8_fetch_failure_message tNotFound).1 resp404 rfl rfl,
   (claim_C8_fetch_failure_message tNotFound).2.1 resp404 rfl rfl,
   (claim_C8_fetch_failure_message tNotFound).2.2 resp404 rfl rfl⟩

/-- C7: in every entity-list handler, whenever pressing Enter runs a
sub-screen (the add form, or the detail screen from which updates and
deletes are issued), the list shown next is exactly the item list of a
fresh fetch_data of the collection URL, whatever the previously held list
was — the local list is never patched. -/
theorem claim_C7_fresh_fetch_after_write (t : Transport) (data : Json) :
    (∀ items idx href next i, handle_users_enter t data items idx = .addThenReload href next i →
      next = (fetch_data t usersUrl).itemsD ∧ i = 0) ∧
    (∀ items idx href next i, handle_users_enter t data items idx = .detailThenReload href next i →
      next = (fetch_data t usersUrl).itemsD ∧ i = 0) ∧
    (∀ items idx href next i, handle_recipes_enter t data items idx = .addThenReload href next i →
      next = (fetch_data t recipesUrl).itemsD ∧ i = 0) ∧
    (∀ items idx href next i, handle_recipes_enter t data items idx = .detailThenReload href next i →
      next = (fetch_data t recipesUrl).itemsD ∧ i = 0) ∧
    (∀ items idx href next i, handle_ingredients_enter t data items idx = .addThenReload href next i →
      next = (fetch_data t ingredientsUrl).itemsD ∧ i = 0) ∧
    (∀ items idx href next i, handle_ingredients_enter t data items idx = .detailThenReload href next i →
      next = (fetch_data t ingredientsUrl).itemsD ∧ i = 0) := by
  refine ⟨fun items idx href next i h => ?_, fun items idx href next i h => ?_,
    fun items idx href next i h => ?_, fun items idx href next i h => ?_,
    fun items idx href next i h => ?_, fun items idx href next i h => ?_⟩ <;>
  · simp only [handle_users_enter, handle_recipes_enter, handle_ingredients_enter] at h
    repeat' split at h
    all_goals simp_all [reload_users, reload_recipes, reload_ingredients]

/-- Witness for C7: with an empty list and the cursor on the Add New User
row, Enter dispatches to the add form and the list shown next is the fresh
fetch of the user collection. -/
theorem claim_C7_fresh_fetch_after_write_witness :
    ([] : List Json) = (fetch_data tNotFound usersUrl).itemsD ∧ (0 : Nat) = 0 :=
  (claim_C7_fresh_fetch_after_write tNotFound usersCollectionFixture).1
    [] 1 ("/api/users/") [] 0 rfl

/-- C5: with the add-ingredient URL resolved from the hypermedia control of
the collection document (as handle_ingredients passes it), entering name
Salt and description Fine grain posts exactly the payload with those two
fields to API_BASE ++ href, and the screen reports creation success exactly
when the response status is 201, otherwise the failure message. -/
theorem claim_C5_add_ingredient_scenario (t : Transport) (data : Json) (href : String)
    (r : HttpResponse)
    (hctrl : data.control ("cookbook:add-ingredient") = .ok href)
    (hpost : t.post (API_BASE ++ href) saltPayload = .ok r) :
    (add_ingredient t href ("Salt") ("Fine grain")).requests =
      [.post (API_BASE ++ href) saltPayload] ∧
    ((add_ingredient t href ("Salt") ("Fine grain")).outcome =
        .ok ("Ingredient created successfully. Press any key to exit") ↔
      r.status_code = 201) ∧
    (r.status_code ≠ 201 →
      (add_ingredient t href ("Salt") ("Fine grain")).outcome =
        .ok ("Failed to create ingredient.  Press any key to exit")) := by
  have hname : get_user_input ("Salt") ("") = "Salt" := by decide
  have hdesc : get_user_input ("Fine grain") ("") = "Fine grain" := by decide
  simp only [saltPayload] at hpost
  by_cases h201 : r.status_code = 201 <;>
    simp [add_ingredient, hname, hdesc, post_data, hpost, saltPayload, h201]

/-- Witness for C5: a transport answering 201 to every POST, with the href
taken from the collection fixture document. -/
theorem claim_C5_add_ingredient_scenario_witness :
    (add_ingredient t201 ("/api/ingredients/") ("Salt") ("Fine grain")).requests =
      [.post (API_BASE ++ "/api/ingredients/") saltPayload] ∧
    ((add_ingredient t201 ("/api/ingredients/") ("Salt") ("Fine grain")).outcome =
        .ok ("Ingredient created successfully. Press any key to exit") ↔
      resp201.status_code = 201) ∧
    (resp201.status_code ≠ 201 →
      (add_ingredient t201 ("/api/ingredients/") ("Salt") ("Fine grain")).outcome =
        .ok ("Failed to create ingredient.  Press any key to exit")) :=
  claim_C5_add_ingredient_scenario t201 ingredientsCollectionFixture ("/api/ingredients/")
    resp201 rfl rfl

/-- C6: when editing a recipe, every prompt left blank makes the PUT payload
carry the previously fetched value of that field; entering only a new title
sends a payload equal to the fetched recipe data on every field except
title. -/
theorem claim_C6_edit_preserves_fields (t : Transport)
    (title description steps prep cook : String) (serving uid : Int)
    (updHref newTitleT : String) (h : pyStrip newTitleT ≠ "") :
    (edit_recipe t (recipe_obj title description steps prep cook serving uid updHref)
        newTitleT ("") ("") ("") ("") ("") ("")).requests =
      [.put (API_BASE ++ updHref) (Json.obj
        [("title", .str (pyStrip newTitleT)), ("description", .str description),
         ("steps", .str steps), ("preparation_time", .str prep),
         ("cooking_time", .str cook), ("serving", .num serving),
         ("user_id", .num uid)])] := by
  have hblank : get_user_input ("") ("") = "" := by decide
  have hT : get_user_input newTitleT ("") = pyStrip newTitleT := by
    simp [get_user_input, h]
  cases hput : t.put (API_BASE ++ updHref) (Json.obj
      [("title", .str (pyStrip newTitleT)), ("description", .str description),
       ("steps", .str steps), ("preparation_time", .str prep),
       ("cooking_time", .str cook), ("serving", .num serving),
       ("user_id", .num uid)]) <;>
    simp [edit_recipe, recipe_obj, Json.index, Json.lookup, Json.getD, Json.control,
      assoc, pyOrField, hT, hblank, pyIntOfJson, h, hput]

/-- Witness for C6: editing the fixture recipe, typing only the title
Stew. -/
theorem claim_C6_edit_preserves_fields_witness :
    (edit_recipe tErr recipeFixture ("Stew") ("") ("") ("") ("") ("") ("")).requests =
      [.put (API_BASE ++ "/api/recipes/1/") (Json.obj
        [("title", .str (pyStrip ("Stew"))), ("description", .str ("Warm")),
         ("steps", .str ("[1]")), ("preparation_time", .str ("10m")),
         ("cooking_time", .str ("20m")), ("serving", .num 2),
         ("user_id", .num 7)])] :=
  claim_C6_edit_preserves_fields tErr ("Soup") ("Warm") ("[1]") ("10m") ("20m") 2 7
    ("/api/recipes/1/") ("Stew") (by decide)

/-- C1 counterexample: the Edit User action of show_user_details issues its
PUT with a raw requests.put, so with a transport whose PUT raises a
connection error the exception propagates out of the screen handler (an
error outcome), refuting that no transport failure ever reaches the screen
handlers as an exception. -/
theorem claim_C1_counterexample :
    (show_user_details_edit tErr userFixture ("") ("") ("")).outcome =
      .error ("ConnectionError: connection refused") := rfl

/-- C1 amended: the GET and POST wrappers never throw — fetch_data always
returns either the parsed body of an ok response or an object carrying an
error key, and post_data returns the response object or None — while PUT
and DELETE are issued directly through requests, so their transport
failures propagate (see the counterexample). -/
theorem claim_C1_amended_wrappers_never_raise (t : Transport) (url : String) (payload : Json) :
    ((∃ e, fetch_data t url = Json.obj [("error", Json.str e)]) ∨
      (∃ r, t.get url = .ok r ∧ r.ok = true ∧ r.body = .ok (fetch_data t url))) ∧
    ((post_data t url payload = none ∧ ∃ e, t.post url payload = .error e) ∨
      (∃ r, t.post url payload = .ok r ∧ post_data t url payload = some r)) := by
  constructor
  · cases hg : t.get url with
    | error e => exact .inl ⟨e, by simp [fetch_data, hg]⟩
    | ok r =>
      by_cases hok : r.ok = true
      · cases hb : r.body with
        | ok j => exact .inr ⟨r, rfl, hok, by simp [fetch_data, hg, hok, hb]⟩
        | error e => exact .inl ⟨e, by simp [fetch_data, hg, hok, hb]⟩
      · exact .inl ⟨r.text, by simp [fetch_data, hg, hok]⟩
  · cases hp : t.post url payload with
    | error e => exact .inl ⟨by simp [post_data, hp], e, rfl⟩
    | ok r => exact .inr ⟨r, rfl, by simp [post_data, hp]⟩

/-- C2 counterexample: the Add Review form issues its POST even though the
required feedback field is blank (blank user id and rating are silently
replaced by defaults), refuting that every create form rejects blank
required fields without issuing a network write. -/
theorem claim_C2_counterexample :
    (add_review_action t201 recipeReviewFixture ("") ("") ("")).requests =
      [.post (API_BASE ++ "/api/recipes/1/reviews/")
        (Json.obj [("user_id", .num 7), ("rating", .num 1), ("feedback", .str (""))])] ∧
    get_user_input ("") ("") = "" :=
  ⟨rfl, rfl⟩

/-- In add_recipe, a numeric field whose typed input is blank or parses as
an integer lands the int-if-nonblank-else-minus-one computation in the ok
branch, with the sentinel -1 exactly in the blank case. -/
theorem numeric_field_ok (svT : String)
    (h : pyStrip svT = "" ∨ ∃ k, pyInt (get_user_input svT ("")) = .ok k) :
    ∃ s, (if pyStrip (get_user_input svT ("")) ≠ "" then pyInt (get_user_input svT (""))
        else .ok (-1 : Int)) = .ok s ∧ (pyStrip svT = "" → s = -1) := by
  have hps : pyStrip ("") = "" := by decide
  by_cases hg : pyStrip (get_user_input svT ("")) = ""
  · exact ⟨-1, by simp [hg], fun _ => rfl⟩
  · rcases h with h | ⟨k, hk⟩
    · exact absurd (by simp [get_user_input, h, hps]) hg
    · refine ⟨k, by simp [hg, hk], fun hc => ?_⟩
      exact absurd (by simp [get_user_input, hc, hps]) hg

/-- C2 amended: the user and ingredient create forms reject any blank
required field with the rejection message and no network write request; the
recipe create form issues no network write request when any required field
is blank, and shows the rejection message when additionally its two numeric
fields are blank or parse as integers (a non-numeric numeric field raises
before the blank check, see C3); the review create form never rejects:
blank user id and rating fall back to defaults and blank feedback is POSTed
as-is. -/
theorem claim_C2_amended_blank_rejection (t : Transport) :
    (∀ href uT eT pT, pyStrip uT = "" ∨ pyStrip eT = "" ∨ pyStrip pT = "" →
        add_user t href uT eT pT =
          ⟨[], .ok ("All fields are required. Press any key to exit.")⟩) ∧
    (∀ href nT dT, pyStrip nT = "" ∨ pyStrip dT = "" →
        add_ingredient t href nT dT =
          ⟨[], .ok ("All fields are required. Press any key to exit.")⟩) ∧
    (∀ href tT dT sT pT cT svT uT,
        (pyStrip tT = "" ∨ pyStrip dT = "" ∨ pyStrip sT = "" ∨ pyStrip pT = "" ∨
          pyStrip cT = "" ∨ pyStrip svT = "" ∨ pyStrip uT = "") →
        (add_recipe t href tT dT sT pT cT svT uT).requests = []) ∧
    (∀ href tT dT sT pT cT svT uT,
        (pyStrip tT = "" ∨ pyStrip dT = "" ∨ pyStrip sT = "" ∨ pyStrip pT = "" ∨
          pyStrip cT = "" ∨ pyStrip svT = "" ∨ pyStrip uT = "") →
        (pyStrip svT = "" ∨ ∃ k, pyInt (get_user_input svT ("")) = .ok k) →
        (pyStrip uT = "" ∨ ∃ k, pyInt (get_user_input uT ("")) = .ok k) →
        add_recipe t href tT dT sT pT cT svT uT =
          ⟨[], .ok ("All fields are required. Press any key to exit.")⟩) ∧
    (∀ (uid : Int) (revHref fbT : String), pyStrip fbT = "" →
        (add_review_action t (Json.obj [("user_id", .num uid),
            ("@controls", .obj [("cookbook:add-review", .obj [("href", .str revHref)])])])
          ("") ("") fbT).requests =
          [.post (API_BASE ++ revHref)
            (Json.obj [("user_id", .num uid), ("rating", .num 1), ("feedback", .str (""))])]) := by
  have hps : pyStrip ("") = "" := by decide
  refine ⟨fun href uT eT pT h => ?_, fun href nT dT h => ?_,
    fun href tT dT sT pT cT svT uT h => ?_,
    fun href tT dT sT pT cT svT uT h hsv hu => ?_, fun uid revHref fbT h => ?_⟩
  · rcases h with h | h | h <;> simp [add_user, get_user_input, h]
  · rcases h with h | h <;> simp [add_ingredient, get_user_input, h]
  · unfold add_recipe
    dsimp only
    split
    · rfl
    · rename_i serving hs
      split
      · rfl
      · rename_i user_id hu
        split
        · rfl
        · rename_i hcond
          exfalso
          apply hcond
          rcases h with h | h | h | h | h | h | h
          · exact .inl (by simp [get_user_input, h])
          · exact .inr (.inl (by simp [get_user_input, h]))
          · exact .inr (.inr (.inl (by simp [get_user_input, h])))
          · exact .inr (.inr (.inr (.inl (by simp [get_user_input, h]))))
          · exact .inr (.inr (.inr (.inr (.inl (by simp [get_user_input, h])))))
          · refine .inr (.inr (.inr (.inr (.inr (.inl ?_)))))
            simp [get_user_input, h, hps] at hs
            omega
          · refine .inr (.inr (.inr (.inr (.inr (.inr ?_)))))
            simp [get_user_input, h, hps] at hu
            omega
  · obtain ⟨s, hs, hsb⟩ := numeric_field_ok svT hsv
    obtain ⟨u, hu2, hub⟩ := numeric_field_ok uT hu
    unfold add_recipe
    dsimp only
    simp only [hs, hu2]
    split_ifs with hc
    · rfl
    · exfalso
      apply hc
      rcases h with h | h | h | h | h | h | h
      · exact .inl (by simp [get_user_input, h])
      · exact .inr (.inl (by simp [get_user_input, h]))
      · exact .inr (.inr (.inl (by simp [get_user_input, h])))
      · exact .inr (.inr (.inr (.inl (by simp [get_user_input, h]))))
      · exact .inr (.inr (.inr (.inr (.inl (by simp [get_user_input, h])))))
      · exact .inr (.inr (.inr (.inr (.inr (.inl (hsb h))))))
      · exact .inr (.inr (.inr (.inr (.inr (.inr (hub h))))))
  · simp [add_review_action, get_user_input, h, hps, Json.index, Json.lookup, assoc,
      pyIntOfJson, Json.control]

/-- Witness for the amended C2: a blank username, a blank ingredient name, a
blank recipe title with parsing numerics (no request, and the rejection
message), and an all-blank review form. -/
theorem claim_C2_amended_blank_rejection_witness :
    add_user tErr ("/api/users/") ("") ("bob@example.com") ("pw") =
      ⟨[], .ok ("All fields are required. Press any key to exit.")⟩ ∧
    add_ingredient tErr ("/api/ingredients/") ("") ("Fine grain") =
      ⟨[], .ok ("All fields are required. Press any key to exit.")⟩ ∧
    (add_recipe tErr ("/api/recipes/") ("") ("D") ("S") ("10m") ("20m") ("2") ("7")).requests =
      [] ∧
    add_recipe tErr ("/api/recipes/") ("") ("D") ("S") ("10m") ("20m") ("2") ("7") =
      ⟨[], .ok ("All fields are required. Press any key to exit.")⟩ ∧
    (add_review_action t201 (Json.obj [("user_id", .num 7),
        ("@controls", .obj [("cookbook:add-review",
          .obj [("href", .str ("/api/recipes/1/reviews/"))])])]) ("") ("") ("")).requests =
      [.post (API_BASE ++ "/api/recipes/1/reviews/")
        (Json.obj [("user_id", .num 7), ("rating", .num 1), ("feedback", .str (""))])] :=
  ⟨(claim_C2_amended_blank_rejection tErr).1 ("/api/users/") ("") ("bob@example.com") ("pw")
      (.inl (by decide)),
   (claim_C2_amended_blank_rejection tErr).2.1 ("/api/ingredients/") ("") ("Fine grain")
      (.inl (by decide)),
   (claim_C2_amended_blank_rejection tErr).2.2.1 ("/api/recipes/") ("") ("D") ("S") ("10m")
      ("20m") ("2") ("7") (.inl (by decide)),
   (claim_C2_amended_blank_rejection tErr).2.2.2.1 ("/api/recipes/") ("") ("D") ("S") ("10m")
      ("20m") ("2") ("7") (.inl (by decide)) (.inr ⟨2, rfl⟩) (.inr ⟨7, rfl⟩),
   (claim_C2_amended_blank_rejection t201).2.2.2.2 7 ("/api/recipes/1/reviews/") ("")
      (by decide)⟩

/-- C3 counterexample: a non-numeric serving entry in the add-recipe form is
not treated like a blank one — int raises an uncaught ValueError instead of
the fields-required rejection. -/
theorem claim_C3_counterexample :
    (add_recipe tErr ("/api/recipes/") ("T") ("D") ("S") ("10m") ("20m") ("abc")
        ("1")).outcome =
      .error ("ValueError: invalid literal for int with base 10: abc") ∧
    (add_recipe tErr ("/api/recipes/") ("T") ("D") ("S") ("10m") ("20m") ("abc")
        ("1")).outcome ≠
      .ok ("All fields are required. Press any key to exit.") :=
  ⟨rfl, fun hcontra => Except.noConfusion hcontra⟩

/-- C3 amended: a blank numeric field is replaced by a sentinel or default
(-1 in add_recipe, triggering the fields-required rejection; 1 or the
fetched user id in the review form), but a non-blank non-numeric numeric
field raises an uncaught ValueError at the int parse site instead of being
treated as absent. -/
theorem claim_C3_amended_nonnumeric_raises (t : Transport) (href tT dT sT pT cT : String) :
    (∀ svT uT e, pyStrip (get_user_input svT ("")) ≠ "" →
        pyInt (get_user_input svT ("")) = .error e →
        add_recipe t href tT dT sT pT cT svT uT = ⟨[], .error e⟩) ∧
    (∀ svT uT, pyStrip svT = "" → pyStrip uT = "" →
        add_recipe t href tT dT sT pT cT svT uT =
          ⟨[], .ok ("All fields are required. Press any key to exit.")⟩) ∧
    (∀ (data : Json) (rT fT e : String), pyStrip rT ≠ "" → pyInt (pyStrip rT) = .error e →
        add_review_action t data ("3") rT fT = ⟨[], .error e⟩) := by
  have hps : pyStrip ("") = "" := by decide
  refine ⟨fun svT uT e h1 h2 => ?_, fun svT uT h1 h2 => ?_,
    fun data rT fT e h1 h2 => ?_⟩
  · simp [add_recipe, h1, h2]
  · simp [add_recipe, get_user_input, h1, h2, hps]
  · have h3 : get_user_input rT ("") = pyStrip rT := by simp [get_user_input, h1]
    have h4 : get_user_input ("3") ("") = "3" := by decide
    have h5 : pyInt ("3") = .ok (3 : Int) := rfl
    simp [add_review_action, h3, h4, h5, h1, h2]

/-- Witness for the amended C3: serving typed as abc raises ValueError, both
numerics blank get the sentinel and the rejection, and a non-numeric rating
in the review form raises. -/
theorem claim_C3_amended_nonnumeric_raises_witness :
    add_recipe tErr ("/api/recipes/") ("T") ("D") ("S") ("10m") ("20m") ("abc") ("1") =
      ⟨[], .error ("ValueError: invalid literal for int with base 10: abc")⟩ ∧
    add_recipe tErr ("/api/recipes/") ("T") ("D") ("S") ("10m") ("20m") ("") ("") =
      ⟨[], .ok ("All fields are required. Press any key to exit.")⟩ ∧
    add_review_action tErr recipeReviewFixture ("3") ("five") ("ok") =
      ⟨[], .error ("ValueError: invalid literal for int with base 10: five")⟩ :=
  ⟨(claim_C3_amended_nonnumeric_raises tErr ("/api/recipes/") ("T") ("D") ("S") ("10m")
      ("20m")).1 ("abc") ("1")
      ("ValueError: invalid literal for int with base 10: abc") (by decide) rfl,
   (claim_C3_amended_nonnumeric_raises tErr ("/api/recipes/") ("T") ("D") ("S") ("10m")
      ("20m")).2.1 ("") ("") (by decide) (by decide),
   (claim_C3_amended_nonnumeric_raises tErr ("/api/recipes/") ("T") ("D") ("S") ("10m")
      ("20m")).2.2 recipeReviewFixture ("five") ("ok")
      ("ValueError: invalid literal for int with base 10: five") (by decide) rfl⟩

/-- List.getD over an append, when the index reaches past the first part. -/
theorem getD_append_right_str (rows tail : List String) (idx : Nat)
    (h : rows.length ≤ idx) :
    (rows ++ tail).getD idx ("") = tail.getD (idx - rows.length) ("") := by
  induction rows generalizing idx with
  | nil => simp
  | cons a as ih =>
    cases idx with
    | zero => simp at h
    | succ n =>
      have hn : as.length ≤ n := by simpa using h
      simpa using ih n hn

/-- mapE preserves the length of its input on success. -/
theorem mapE_ok_length {α β : Type} (f : α → Except String β) :
    ∀ (l : List α) (out : List β), mapE f l = .ok out → out.length = l.length := by
  intro l
  induction l with
  | nil =>
    intro out h
    simp only [mapE] at h
    cases h
    rfl
  | cons a as ih =>
    intro out h
    cases hfa : f a with
    | error e => simp [mapE, hfa] at h
    | ok b =>
      cases hma : mapE f as with
      | error e => simp [mapE, hfa, hma] at h
      | ok bs =>
        simp only [mapE, hfa, hma] at h
        cases h
        simp [ih bs hma]

/-- In a menu of entity rows followed by the blank separator, the add row
and the back row, a selection index past the entity rows lands on one of
those three sentinel rows. -/
theorem sentinel_row_position (rows : List String) (addLabel : String) (idx : Nat)
    (hlen : idx < (rows ++ [(""), addLabel, ("Back")]).length)
    (hb : (rows ++ [(""), addLabel, ("Back")]).getD idx ("") ≠ "Back")
    (ha : (rows ++ [(""), addLabel, ("Back")]).getD idx ("") ≠ addLabel)
    (he : (rows ++ [(""), addLabel, ("Back")]).getD idx ("") ≠ "") :
    idx < rows.length := by
  by_contra hge
  push_neg at hge
  rw [getD_append_right_str rows _ idx hge] at hb ha he
  have h3 : idx - rows.length < 3 := by
    simp [List.length_append] at hlen
    omega
  have hk : idx - rows.length = 0 ∨ idx - rows.length = 1 ∨ idx - rows.length = 2 := by
    omega
  rcases hk with hk | hk | hk <;> simp [hk] at hb ha he

/-- C10 counterexample: in handle_users with one user, Enter on the blank
separator row (index 1) selects a row that is neither Back nor Add New
User, yet the index is not a valid index into the item list, and the entity
lookup raises IndexError. -/
theorem claim_C10_counterexample :
    handle_users_options [userItemFixture] =
      .ok [("1. alice (alice@example.com)"), (""), ("Add New User"), ("Back")] ∧
    (["1. alice (alice@example.com)", "", "Add New User", "Back"].getD 1 ("") ≠ "Back") ∧
    (["1. alice (alice@example.com)", "", "Add New User", "Back"].getD 1 ("") ≠
      "Add New User") ∧
    ¬ (1 < List.length [userItemFixture]) ∧
    handle_users_enter tErr Json.null [userItemFixture] 1 =
      .crash ("IndexError: list index out of range") :=
  ⟨rfl, by decide, by decide, by decide, rfl⟩

/-- C10 amended: in each entity-list handler, when Enter is pressed on a
menu row that is neither Back, nor the Add New entry, nor the blank
separator row between the entities and the action rows, the selection index
is a valid index into the fetched items list; Enter on the blank separator
itself escapes this bound (see the counterexample). -/
theorem claim_C10_amended_separator_row (users recipes ingredients : List Json) (idx : Nat) :
    (∀ opts, handle_users_options users = .ok opts → idx < opts.length →
      opts.getD idx ("") ≠ "Back" → opts.getD idx ("") ≠ "Add New User" →
      opts.getD idx ("") ≠ "" → idx < users.length) ∧
    (∀ opts, handle_recipes_options recipes = .ok opts → idx < opts.length →
      opts.getD idx ("") ≠ "Back" → opts.getD idx ("") ≠ "Add New Recipe" →
      opts.getD idx ("") ≠ "" → idx < recipes.length) ∧
    (∀ opts, handle_ingredients_options ingredients = .ok opts → idx < opts.length →
      opts.getD idx ("") ≠ "Back" → opts.getD idx ("") ≠ "Add New Ingredient" →
      opts.getD idx ("") ≠ "" → idx < ingredients.length) := by
  refine ⟨fun opts hopts hlen hb ha he => ?_, fun opts hopts hlen hb ha he => ?_,
    fun opts hopts hlen hb ha he => ?_⟩
  · cases hm : mapE user_option users with
    | error e => simp [handle_users_options, hm] at hopts
    | ok rows =>
      simp only [handle_users_options, hm] at hopts
      cases hopts
      have := sentinel_row_position rows ("Add New User") idx hlen hb ha he
      rw [mapE_ok_length user_option users rows hm] at this
      exact this
  · cases hm : mapE recipe_option recipes with
    | error e => simp [handle_recipes_options, hm] at hopts
    | ok rows =>
      simp only [handle_recipes_options, hm] at hopts
      cases hopts
      have := sentinel_row_position rows ("Add New Recipe") idx hlen hb ha he
      rw [mapE_ok_length recipe_option recipes rows hm] at this
      exact this
  · cases hm : mapE ingredient_option ingredients with
    | error e => simp [handle_ingredients_options, hm] at hopts
    | ok rows =>
      simp only [handle_ingredients_options, hm] at hopts
      cases hopts
      have := sentinel_row_position rows ("Add New Ingredient") idx hlen hb ha he
      rw [mapE_ok_length ingredient_option ingredients rows hm] at this
      exact this

/-- Witness for the amended C10: with one user and the selection on its row,
the index is in bounds. -/
theorem claim_C10_amended_separator_row_witness :
    (0 : Nat) < List.length [userItemFixture] :=
  (claim_C10_amended_separator_row [userItemFixture] [] [] 0).1
    [("1. alice (alice@example.com)"), (""), ("Add New User"), ("Back")]
    rfl (by decide) (by decide) (by decide) (by decide)

end Cookbook
